import Mathlib

/-!
A shallow embedding of the versioned document store implemented in
src/paperwork/src/lib/Services/StorageService.ts.

JavaScript effects are made explicit:
the results of the Date.now and uuid calls are passed as arguments,
the two localForage-backed key-value stores are association lists threaded
through every operation, and a thrown JavaScript Error is an Except.error.
The external diff engine (npm package diff) is a parameter; its applyPatch
returns the patched string or the boolean false on failure, modelled here as
Option String with none standing for false.
-/

deriving instance DecidableEq for Except

namespace Paperwork

/-- Models the TypeScript enum StorageServiceTransactionTypes, lines 6-10. -/
inductive StorageServiceTransactionTypes where
  | create
  | update
  | destroy
deriving DecidableEq

/-- Models interface StorageServiceTransaction, lines 12-19.  The nullable
revisesId becomes Option String; the numeric timestamp becomes Nat. -/
structure StorageServiceTransaction where
  id : String
  type : StorageServiceTransactionTypes
  staticId : String
  diff : String
  revisesId : Option String
  timestamp : Nat
deriving DecidableEq

/-- Models interface StorageServiceIndex, lines 21-28.  materializedView is
stored as the raw applyPatch result, which at runtime is a string or the
boolean false (jsdiff's failure value), hence Option String. -/
structure StorageServiceIndex where
  id : String
  latestTxId : String
  materializedView : Option String
  createdAt : Nat
  updatedAt : Nat
  deletedAt : Option Nat
deriving DecidableEq

/-- Models one localForage-backed key-value store (the external Storage
class): an association list from string keys to records.  get of an absent
key is none, the JavaScript undefined. -/
structure Storage (α : Type) where
  entries : List (String × α)
deriving DecidableEq

def Storage.get {α : Type} (s : Storage α) (k : String) : Option α :=
  (s.entries.find? (fun p => p.1 == k)).map (fun p => p.2)

def Storage.set {α : Type} (s : Storage α) (k : String) (v : α) : Storage α :=
  ⟨(k, v) :: s.entries.filter (fun p => p.1 != k)⟩

def Storage.keys {α : Type} (s : Storage α) : List String :=
  s.entries.map (fun p => p.1)

/-- Models the external diff engine, npm package diff: createPatch takes a
label, the old text and the new text; applyPatch takes a base and a patch
and returns the new text, or none for jsdiff's false when the patch does
not apply. -/
structure DiffEngine where
  createPatch : String → String → String → String
  applyPatch : String → String → Option String

/-- Thrown JavaScript errors.  invalidUuid models the thrown
Error with message Not a valid UUID, notFound models the thrown Error with
message Note does not exist, and typeError models a JavaScript TypeError
raised by dereferencing undefined or passing false where a string is
expected. -/
inductive Err where
  | invalidUuid
  | notFound
  | typeError
deriving DecidableEq

/-- Result of a depth-indexed run of the recursive chain walk: diverge means
the recursion has not finished within the given depth. -/
inductive FuelRes (α : Type) where
  | diverge
  | err (e : Err)
  | ok (a : α)
deriving DecidableEq

/-- Models the JavaScript String.prototype.split with a one-character
separator, on the list of characters. -/
def jsSplitList (c : Char) : List Char → List (List Char)
  | [] => [[]]
  | x :: xs =>
    match jsSplitList c xs with
    | [] => [[]]
    | h :: t => if x = c then [] :: h :: t else (x :: h) :: t

/-- Models the JavaScript id.split call used by showTx (and the dash split
inside the external uuid validator). -/
def jsSplit (s : String) (c : Char) : List String :=
  (jsSplitList c s.toList).map (fun l => ⟨l⟩)

def isHexDigit (c : Char) : Bool :=
  c.isDigit || (('a' ≤ c) && (c ≤ 'f')) || (('A' ≤ c) && (c ≤ 'F'))

/-- Models isUuid of the external uuidv4 package: the 8-4-4-4-12
hex-with-dashes shape of a UUID string. -/
def isUuid (s : String) : Bool :=
  match jsSplit s '-' with
  | [a, b, c, d, e] =>
    a.length == 8 && b.length == 4 && c.length == 4 && d.length == 4 &&
    e.length == 12 && (a ++ b ++ c ++ d ++ e).toList.all isHexDigit
  | _ => false

/-- The mutable state of a StorageService instance: its two stores,
_txStorage and _idxStorage (lines 31-34). -/
structure StorageService where
  txStorage : Storage StorageServiceTransaction
  idxStorage : Storage StorageServiceIndex
deriving DecidableEq

/-- Models _materialize, lines 54-56: applies the patch and returns the raw
result, unchecked. -/
def _materialize (eng : DiffEngine) (view : String) (diff : String) : Option String :=
  eng.applyPatch view diff

/-- Models ready, lines 58-64: awaits the two backends' ready results, logs
them, and returns true regardless of their values. -/
def ready (localForageTx localForageIdx : Bool) : Bool :=
  true

/-- Models show, lines 95-109; show is a Lean keyword, hence the name.
An absent index entry (undefined) fails the typeof-object check, and a
soft-deleted entry fails the deletedAt check; both throw the
note-does-not-exist Error. -/
def show' (st : StorageService) (id : String) : Except Err StorageServiceIndex :=
  if isUuid id = false then .error .invalidUuid
  else
    match st.idxStorage.get id with
    | none => .error .notFound
    | some idx => if idx.deletedAt ≠ none then .error .notFound else .ok idx

/-- Models showTx, lines 111-118: destructures id.split into idTimestamp and
idUuid and validates only idUuid; when the split has no second element,
idUuid is undefined and the validation fails.  The store's get result is
returned unchecked, so an absent key yields ok none rather than an error. -/
def showTx (st : StorageService) (id : String) :
    Except Err (Option StorageServiceTransaction) :=
  match (jsSplit id ':')[1]? with
  | none => .error .invalidUuid
  | some idUuid =>
    if isUuid idUuid = false then .error .invalidUuid
    else .ok (st.txStorage.get id)

/-- Models _followTxChainLinks, lines 71-80, indexed by recursion depth: the
source recursion keeps no visited set and has no depth bound, so a run that
has not finished within the given depth is reported as diverge.  A showTx
result of undefined makes the source dereference txLink.revisesId on
undefined, a TypeError. -/
def _followTxChainLinks (st : StorageService) :
    Nat → String → FuelRes (List StorageServiceTransaction)
  | 0, _ => .diverge
  | fuel + 1, txId =>
    match showTx st txId with
    | .error e => .err e
    | .ok none => .err .typeError
    | .ok (some txLink) =>
      match txLink.revisesId with
      | none => .ok [txLink]
      | some prevId =>
        match _followTxChainLinks st fuel prevId with
        | .diverge => .diverge
        | .err e => .err e
        | .ok chain => .ok (chain ++ [txLink])

/-- Models getTxChain, lines 66-69. -/
def getTxChain (st : StorageService) (fuel : Nat) (id : String) :
    FuelRes (List StorageServiceTransaction) :=
  match show' st id with
  | .error e => .err e
  | .ok idx => _followTxChainLinks st fuel idx.latestTxId

/-- Models index, lines 82-84. -/
def index (st : StorageService) : List String :=
  st.idxStorage.keys

/-- Models indexTx, lines 86-88. -/
def indexTx (st : StorageService) : List String :=
  st.txStorage.keys

/-- Models createTx, lines 142-157.  now is the Date.now result and
freshUuid the uuid() result; the transaction id is the composite string
made of now, a colon, and freshUuid. -/
def createTx (st : StorageService) (now : Nat) (freshUuid : String)
    (staticId : String) (diff : String) : String × StorageService :=
  let id : String := toString now ++ ":" ++ freshUuid
  let transaction : StorageServiceTransaction :=
    { id := id, type := .create, staticId := staticId, diff := diff,
      revisesId := none, timestamp := now }
  (id, { st with txStorage := st.txStorage.set id transaction })

/-- Models create, lines 120-140.  dataStr is the external JSON.stringify
result for the data argument; now and txNow are the two Date.now calls, one
in create and one inside createTx; freshDocUuid and freshTxUuid are the two
uuid() results. -/
def create (eng : DiffEngine) (st : StorageService) (now txNow : Nat)
    (freshDocUuid freshTxUuid : String) (dataStr : String) :
    String × StorageService :=
  let id := freshDocUuid
  let diff := eng.createPatch id "" dataStr
  let r := createTx st txNow freshTxUuid id diff
  let txId := r.1
  let st1 := r.2
  let idx : StorageServiceIndex :=
    { id := id, latestTxId := txId, createdAt := now, updatedAt := now,
      deletedAt := none, materializedView := _materialize eng "" diff }
  (id, { st1 with idxStorage := st1.idxStorage.set id idx })

/-- Models updateTx, lines 180-195.  The revision id is a bare uuid()
result, not the composite form used by createTx.  Reading staticId on an
undefined existing entry is a JavaScript TypeError. -/
def updateTx (st : StorageService) (txNow : Nat) (freshUuid : String)
    (id : String) (diff : String) : Except Err (String × StorageService) :=
  match showTx st id with
  | .error e => .error e
  | .ok none => .error .typeError
  | .ok (some existingEntry) =>
    let revisionId := freshUuid
    let transaction : StorageServiceTransaction :=
      { id := revisionId, type := .update, staticId := existingEntry.staticId,
        diff := diff, revisesId := some id, timestamp := txNow }
    .ok (revisionId, { st with txStorage := st.txStorage.set revisionId transaction })

/-- Models update, lines 159-178.  Passing a stored false materialized view
into the external createPatch throws, modelled as typeError.  Line 177
returns id, the document id. -/
def update (eng : DiffEngine) (st : StorageService) (txNow updNow : Nat)
    (freshUuid : String) (id : String) (dataStr : String) :
    Except Err (String × StorageService) :=
  match show' st id with
  | .error e => .error e
  | .ok idx =>
    match idx.materializedView with
    | none => .error .typeError
    | some view =>
      let diff := eng.createPatch id view dataStr
      match updateTx st txNow freshUuid idx.latestTxId diff with
      | .error e => .error e
      | .ok (txId, st1) =>
        let updatedIdx : StorageServiceIndex :=
          { id := id, latestTxId := txId,
            materializedView := _materialize eng view diff,
            createdAt := idx.createdAt, updatedAt := updNow, deletedAt := none }
        .ok (id, { st1 with idxStorage := st1.idxStorage.set id updatedIdx })

/-- Models destroy, lines 197-206: the lodash merge of the loaded entry with
a singleton object carrying deletedAt yields the same entry with deletedAt
set to the current time, every other field untouched; only the index store
is written. -/
def destroy (st : StorageService) (now : Nat) (id : String) :
    Except Err (String × StorageService) :=
  match show' st id with
  | .error e => .error e
  | .ok idx =>
    let updatedIdx := { idx with deletedAt := some now }
    .ok (id, { st with idxStorage := st.idxStorage.set id updatedIdx })

/-- Models destroyTx, lines 208-210: echoes its argument and touches
nothing. -/
def destroyTx (id : String) : String :=
  id

/-- Follows the spec's words (section 4.1): a well-formed transaction
identifier is a creation timestamp, a colon, then a random unique token —
here a nonempty decimal timestamp followed by a colon and a UUID. -/
def specCompositeTxId (s : String) : Bool :=
  match jsSplit s ':' with
  | [t, u] => (!t.toList.isEmpty) && t.toList.all Char.isDigit && isUuid u
  | _ => false

/-- The shape check showTx actually performs on a transaction id: the part
after the first colon must be a UUID; nothing else is inspected. -/
def txIdCheck (id : String) : Bool :=
  match (jsSplit id ':')[1]? with
  | none => false
  | some idUuid => isUuid idUuid

end Paperwork

namespace Paperwork

/-- A degenerate but deterministic diff engine used to instantiate the
external diff parameter in concrete runs: the patch is the whole new text,
and application returns the patch itself, so applying a patch to the base it
was computed from always reproduces the new text. -/
def engT : DiffEngine :=
  { createPatch := fun _ _ newStr => newStr, applyPatch := fun _ patch => some patch }

/-- A diff engine whose every application fails, returning jsdiff's false. -/
def engF : DiffEngine :=
  { createPatch := fun _ _ newStr => newStr, applyPatch := fun _ _ => none }

/-- The empty initial state: both stores empty. -/
def st0 : StorageService := ⟨⟨[]⟩, ⟨[]⟩⟩

def uuidA : String := "aaaaaaaa-aaaa-aaaa-aaaa-aaaaaaaaaaaa"

def uuidB : String := "bbbbbbbb-bbbb-bbbb-bbbb-bbbbbbbbbbbb"

def uuidC : String := "cccccccc-cccc-cccc-cccc-cccccccccccc"

def uuidD : String := "dddddddd-dddd-dddd-dddd-dddddddddddd"

/-- Extracts the next state from a step expected to succeed, with a fallback
for the error case. -/
def stepOk (r : Except Err (String × StorageService)) (fallback : StorageService) :
    StorageService :=
  match r with
  | .ok p => p.2
  | .error _ => fallback

/-- State after one create call: document uuidA, root transaction id made of
the timestamp 5, a colon and uuidB, serialized data the string da. -/
def st1 : StorageService := (create engT st0 5 5 uuidA uuidB "da").2

def rootId : String := "5:" ++ uuidB

/-- The root transaction record that the create call of st1 stores. -/
def rootTx : StorageServiceTransaction :=
  { id := rootId, type := .create, staticId := uuidA, diff := "da",
    revisesId := none, timestamp := 5 }

/-- The index entry that the create call of st1 stores. -/
def idx1 : StorageServiceIndex :=
  { id := uuidA, latestTxId := rootId, materializedView := some "da",
    createdAt := 5, updatedAt := 5, deletedAt := none }

/-- State after a further update of uuidA with serialized data db, appending
revision uuidC. -/
def st2 : StorageService := stepOk (update engT st1 7 7 uuidC uuidA "db") st1

/-- State after destroying uuidA in st2 at time 9. -/
def st3d : StorageService := stepOk (destroy st2 9 uuidA) st2

/-- State after an update of st1 performed with the always-failing engine. -/
def c5st2 : StorageService := stepOk (update engF st1 7 7 uuidC uuidA "db") st1

/-- Serialization of the object with title a, as JSON.stringify with two
spaces of indentation produces it. -/
def jsonA : String := "\x7b\n  \"title\": \"a\"\n\x7d"

/-- Serialization of the object with title b. -/
def jsonB : String := "\x7b\n  \"title\": \"b\"\n\x7d"

/-- Serialization of the object with title c. -/
def jsonC : String := "\x7b\n  \"title\": \"c\"\n\x7d"

/-- Scenario state after create of the title-a document. -/
def c3st1 : StorageService := (create engT st0 5 5 uuidA uuidB jsonA).2

/-- Scenario state after the first update, to title b. -/
def c3st2 : StorageService := stepOk (update engT c3st1 7 7 uuidC uuidA jsonB) c3st1

/-- A transaction id of composite shape whose record points back to itself,
modelling a corrupted chain. -/
def cycTxId : String := "1:" ++ uuidA

/-- A self-referential transaction: its revisesId is its own id. -/
def cycTx : StorageServiceTransaction :=
  { id := cycTxId, type := .update, staticId := uuidB, diff := "",
    revisesId := some cycTxId, timestamp := 1 }

/-- An index entry whose chain head is the self-referential transaction. -/
def cycIdx : StorageServiceIndex :=
  { id := uuidB, latestTxId := cycTxId, materializedView := some "",
    createdAt := 0, updatedAt := 0, deletedAt := none }

/-- A state holding the self-referential chain. -/
def cycSt : StorageService := ⟨⟨[(cycTxId, cycTx)]⟩, ⟨[(uuidB, cycIdx)]⟩⟩

/-- A transaction stored under a key whose timestamp part is not numeric. -/
def strayTxId : String := "x:" ++ uuidA

/-- The record stored under the malformed composite key. -/
def strayTx : StorageServiceTransaction :=
  { id := strayTxId, type := .create, staticId := uuidA, diff := "",
    revisesId := none, timestamp := 0 }

/-- A state whose transaction store holds the malformed-key record. -/
def straySt : StorageService := ⟨⟨[(strayTxId, strayTx)]⟩, ⟨[]⟩⟩

theorem Storage.get_set_self {α : Type} (s : Storage α) (k : String) (v : α) :
    (s.set k v).get k = some v := by
  simp [Storage.get, Storage.set, List.find?]

/-- Helper: once the walk reaches a transaction whose revisesId is its own
id, no recursion depth suffices for it to return. -/
theorem followTxChainLinks_self_cycle (st : StorageService) (txId : String)
    (tx : StorageServiceTransaction)
    (htx : showTx st txId = .ok (some tx)) (hrev : tx.revisesId = some txId) :
    ∀ fuel, _followTxChainLinks st fuel txId = .diverge := by
  intro fuel
  induction fuel with
  | zero => rfl
  | succ n ih =>
    have hstep : _followTxChainLinks st (n + 1) txId =
        match showTx st txId with
        | .error e => .err e
        | .ok none => .err .typeError
        | .ok (some txLink) =>
          match txLink.revisesId with
          | none => .ok [txLink]
          | some prevId =>
            match _followTxChainLinks st n prevId with
            | .diverge => .diverge
            | .err e => .err e
            | .ok chain => .ok (chain ++ [txLink]) := rfl
    rw [hstep, htx]
    simp only [hrev, ih]

/-- C1 counterexample: in the concrete run where document uuidA is created
and then updated with fresh revision id uuidC, the update call returns the
document id uuidA, which differs from uuidC, the id of the newly appended
Update transaction that becomes the index entry's latestTxId.  This refutes
the claim that update returns the new transaction's id. -/
theorem c1_counterexample :
    (update engT st1 7 7 uuidC uuidA "db").map Prod.fst = .ok uuidA ∧
    uuidA ≠ uuidC ∧
    (st2.idxStorage.get uuidA).map (fun i => i.latestTxId) = some uuidC := by
  refine ⟨by decide, by decide, by decide⟩

/-- C1 amended: whenever update succeeds, it returns the document id it was
given, while the freshly generated revision id becomes the stored index
entry's latestTxId. -/
theorem c1_update_returns_document_id (eng : DiffEngine) (st : StorageService)
    (txNow updNow : Nat) (freshUuid id dataStr r : String) (st2' : StorageService)
    (h : update eng st txNow updNow freshUuid id dataStr = .ok (r, st2')) :
    r = id ∧ (st2'.idxStorage.get id).map (fun i => i.latestTxId) = some freshUuid := by
  unfold update updateTx at h
  cases hshow : show' st id with
  | error e => simp only [hshow] at h; exact Except.noConfusion h
  | ok idx =>
    simp only [hshow] at h
    cases hview : idx.materializedView with
    | none => simp only [hview] at h; exact Except.noConfusion h
    | some view =>
      simp only [hview] at h
      cases htx : showTx st idx.latestTxId with
      | error e => simp only [htx] at h; exact Except.noConfusion h
      | ok otx =>
        simp only [htx] at h
        cases otx with
        | none => simp at h
        | some tx =>
          simp only [Except.ok.injEq, Prod.mk.injEq] at h
          obtain ⟨h1, h2⟩ := h
          refine ⟨h1.symm, ?_⟩
          rw [← h2]
          simp [Storage.get_set_self]

/-- C1 witness: the amended statement instantiated on the concrete run used
by the counterexample. -/
theorem c1_witness :
    update engT st1 7 7 uuidC uuidA "db" = .ok (uuidA, st2) ∧
    (uuidA = uuidA ∧
      (st2.idxStorage.get uuidA).map (fun i => i.latestTxId) = some uuidC) :=
  ⟨by decide, c1_update_returns_document_id engT st1 7 7 uuidC uuidA "db" uuidA st2 (by decide)⟩

/-- C2: in the concrete run, the transaction appended by update is stored
with a bare UUID id, which is not of the composite timestamp-colon-token
form; the root transaction written by create is composite; and showTx, the
service's own reader, consequently rejects the update transaction's id.
The code hereby contradicts its own id format: updateTx omits the timestamp
prefix that createTx adds and that showTx requires. -/
theorem c2_update_transaction_id_shape :
    Storage.get st2.txStorage uuidC = some
      { id := uuidC, type := .update, staticId := uuidA, diff := "db",
        revisesId := some rootId, timestamp := 7 } ∧
    specCompositeTxId uuidC = false ∧
    specCompositeTxId rootId = true ∧
    showTx st2 uuidC = .error .invalidUuid := by
  refine ⟨by decide, by decide, by decide, by decide⟩

/-- C3: in the concrete scenario, create of the title-a document and the
first update to title b succeed and the materialized view tracks the update,
but readChain already fails with the invalid-UUID error, because the chain
head is the bare-UUID revision id that showTx cannot parse, and the second
update, to title c, fails the same way for the same reason before anything
is written.  The claimed root-first chain and title-c view are unreachable. -/
theorem c3_scenario_eval :
    (update engT c3st1 7 7 uuidC uuidA jsonB).map Prod.fst = .ok uuidA ∧
    (show' c3st2 uuidA).map (fun i => i.materializedView) = .ok (some jsonB) ∧
    getTxChain c3st2 100 uuidA = .err .invalidUuid ∧
    update engT c3st2 9 9 uuidD uuidA jsonC = .error .invalidUuid := by
  refine ⟨by decide, by decide, by decide, by decide⟩

/-- C4: after destroy of the created-then-updated document, read fails with
the note-does-not-exist error as claimed, and the root transaction is still
retrievable through showTx; but the update transaction of the chain, though
still physically present in the transaction store, is not retrievable: its
bare-UUID id is rejected by showTx's shape check. -/
theorem c4_destroy_then_reads :
    (destroy st2 9 uuidA).map Prod.fst = .ok uuidA ∧
    show' st3d uuidA = .error .notFound ∧
    showTx st3d rootId = .ok (some rootTx) ∧
    Storage.get st3d.txStorage uuidC = some
      { id := uuidC, type := .update, staticId := uuidA, diff := "db",
        revisesId := some rootId, timestamp := 7 } ∧
    showTx st3d uuidC = .error .invalidUuid := by
  refine ⟨by decide, by decide, by decide, by decide, by decide⟩

/-- C5 counterexample: with a diff engine whose application fails, update on
a live document still succeeds, returns the document id, and stores the
failure value itself (jsdiff's false, here none) as the materialized view;
no PatchConflict failure exists anywhere in the service.  This refutes the
claim that a failed application makes the operation fail. -/
theorem c5_counterexample :
    (update engF st1 7 7 uuidC uuidA "db").map Prod.fst = .ok uuidA ∧
    (c5st2.idxStorage.get uuidA).map (fun i => i.materializedView) = some none := by
  refine ⟨by decide, by decide⟩

/-- C5 amended: the service never inspects the result of patch application;
whenever the engine's apply fails, update still succeeds and stores the
failure value as the materialized view, and create behaves the same way. -/
theorem c5_apply_failure_stored (eng : DiffEngine) (st : StorageService)
    (txNow updNow : Nat) (freshUuid id dataStr view : String)
    (idx : StorageServiceIndex) (tx : StorageServiceTransaction)
    (hshow : show' st id = .ok idx)
    (hview : idx.materializedView = some view)
    (htx : showTx st idx.latestTxId = .ok (some tx))
    (hfail : eng.applyPatch view (eng.createPatch id view dataStr) = none) :
    (∃ st2', update eng st txNow updNow freshUuid id dataStr = .ok (id, st2') ∧
      (st2'.idxStorage.get id).map (fun i => i.materializedView) = some none) ∧
    (∀ now txNow2 du tu d2, eng.applyPatch "" (eng.createPatch du "" d2) = none →
      ((create eng st now txNow2 du tu d2).2.idxStorage.get du).map
        (fun i => i.materializedView) = some none) := by
  constructor
  · unfold update updateTx
    simp only [hshow, hview, htx]
    exact ⟨_, rfl, by simp [Storage.get_set_self, _materialize, hfail]⟩
  · intro now txNow2 du tu d2 hfail2
    unfold create createTx
    simp [Storage.get_set_self, _materialize, hfail2]

/-- C5 witness: the amended statement instantiated with the always-failing
engine on the concrete live document of st1. -/
theorem c5_witness :
    (∃ st2', update engF st1 7 7 uuidC uuidA "db" = .ok (uuidA, st2') ∧
      (st2'.idxStorage.get uuidA).map (fun i => i.materializedView) = some none) ∧
    (∀ now txNow2 du tu d2, engF.applyPatch "" (engF.createPatch du "" d2) = none →
      ((create engF st1 now txNow2 du tu d2).2.idxStorage.get du).map
        (fun i => i.materializedView) = some none) :=
  c5_apply_failure_stored engF st1 7 7 uuidC uuidA "db" "da" idx1 rootTx
    (by decide) (by decide) (by decide) rfl

/-- C6 counterexample: on a state whose chain revisits a transaction id (a
self-referential revisesId), the chain walk has neither returned nor failed
after one hundred recursion steps; it diverges instead of detecting the
revisit, and no CorruptChain error exists in the service.  This refutes the
claim that the walk keeps a visited set and fails on revisits or at a
maximum depth. -/
theorem c6_counterexample : getTxChain cycSt 100 uuidB = .diverge := by
  have h := followTxChainLinks_self_cycle cycSt cycTxId cycTx (by decide) rfl 100
  have hshow : show' cycSt uuidB = .ok cycIdx := by decide
  unfold getTxChain
  simp only [hshow]
  exact h

/-- C6 amended: the walk keeps no visited set and has no depth bound; on any
state whose chain head revises itself, no recursion depth makes readChain
return, modelling unbounded recursion. -/
theorem c6_self_reference_diverges (st : StorageService) (id : String)
    (idx : StorageServiceIndex) (tx : StorageServiceTransaction) (fuel : Nat)
    (hshow : show' st id = .ok idx)
    (htx : showTx st idx.latestTxId = .ok (some tx))
    (hrev : tx.revisesId = some idx.latestTxId) :
    getTxChain st fuel id = .diverge := by
  unfold getTxChain
  simp only [hshow]
  exact followTxChainLinks_self_cycle st idx.latestTxId tx htx hrev fuel

/-- C6 witness: the amended statement instantiated on the concrete
self-referential state at depth five. -/
theorem c6_witness :
    show' cycSt uuidB = .ok cycIdx ∧ getTxChain cycSt 5 uuidB = .diverge :=
  ⟨by decide, c6_self_reference_diverges cycSt uuidB cycIdx cycTx 5 (by decide) (by decide) rfl⟩

/-- C7: the round trip holds after create (the view is the serialized data)
and still holds after the first update; but a second update on the same
live document fails with the invalid-UUID error, because the chain head id
recorded by the first update is a bare UUID that showTx rejects, so the
claimed for-every-update round trip is unattainable beyond the first
revision. -/
theorem c7_round_trip_eval :
    (show' st1 uuidA).map (fun i => i.materializedView) = .ok (some "da") ∧
    (show' st2 uuidA).map (fun i => i.materializedView) = .ok (some "db") ∧
    update engT st2 9 9 uuidD uuidA "dc" = .error .invalidUuid := by
  refine ⟨by decide, by decide, by decide⟩

/-- C8: destroy on a live document succeeds, writes an index entry equal to
the stored one in every field except deletedAt, which becomes the current
time, and leaves the transaction store untouched. -/
theorem c8_destroy_frame (st : StorageService) (now : Nat) (id : String)
    (idx : StorageServiceIndex) (hshow : show' st id = .ok idx) :
    ∃ st2', destroy st now id = .ok (id, st2') ∧
      st2'.txStorage = st.txStorage ∧
      st2'.idxStorage.get id = some
        { id := idx.id, latestTxId := idx.latestTxId,
          materializedView := idx.materializedView, createdAt := idx.createdAt,
          updatedAt := idx.updatedAt, deletedAt := some now } := by
  unfold destroy
  simp only [hshow]
  exact ⟨_, rfl, rfl, by simp [Storage.get_set_self]⟩

/-- C8 witness: the frame statement instantiated on the concrete live
document of st1 at time nine. -/
theorem c8_witness :
    show' st1 uuidA = .ok idx1 ∧
    ∃ st2', destroy st1 9 uuidA = .ok (uuidA, st2') ∧
      st2'.txStorage = st1.txStorage ∧
      st2'.idxStorage.get uuidA = some
        { id := idx1.id, latestTxId := idx1.latestTxId,
          materializedView := idx1.materializedView, createdAt := idx1.createdAt,
          updatedAt := idx1.updatedAt, deletedAt := some 9 } :=
  ⟨by decide, c8_destroy_frame st1 9 uuidA idx1 (by decide)⟩

/-- C9 counterexample: the id made of a non-numeric timestamp part, a colon
and a UUID is not a well-formed transaction identifier in the spec's
composite sense, yet showTx does not fail on it: on an empty store it
returns the undefined lookup result, and on a store holding a record under
that key it returns the record, so the malformed id does reach the store.
This refutes the claim that every malformed identifier fails before any
lookup. -/
theorem c9_counterexample :
    specCompositeTxId strayTxId = false ∧
    isUuid strayTxId = false ∧
    showTx st0 strayTxId = .ok none ∧
    showTx straySt strayTxId = .ok (some strayTx) := by
  refine ⟨by decide, by decide, by decide, by decide⟩

/-- C9 amended: show rejects every id that is not a UUID before touching any
store, and showTx rejects before any lookup exactly those ids whose part
after the first colon is not a UUID; ids with a UUID after the colon pass
the check whatever precedes the colon. -/
theorem c9_validation_before_lookup (id : String) :
    (isUuid id = false → ∀ st, show' st id = .error .invalidUuid) ∧
    (txIdCheck id = false → ∀ st, showTx st id = .error .invalidUuid) := by
  constructor
  · intro h st
    simp [show', h]
  · intro h st
    unfold txIdCheck at h
    unfold showTx
    cases hsplit : (jsSplit id ':')[1]? with
    | none => simp [hsplit]
    | some u =>
      simp only [hsplit] at h
      simp [hsplit, h]

/-- C9 witness: the amended statement instantiated on the literal
not-a-uuid string and the empty state. -/
theorem c9_witness :
    isUuid "not-a-uuid" = false ∧ txIdCheck "not-a-uuid" = false ∧
    show' st0 "not-a-uuid" = .error .invalidUuid ∧
    showTx st0 "not-a-uuid" = .error .invalidUuid :=
  ⟨by decide, by decide,
    (c9_validation_before_lookup "not-a-uuid").1 (by decide) st0,
    (c9_validation_before_lookup "not-a-uuid").2 (by decide) st0⟩

/-- C10: ready returns true whatever the two backend ready results are, so
its boolean never reflects backend initialization and a false return is
impossible. -/
theorem c10_ready_always_true :
    ∀ localForageTx localForageIdx : Bool, ready localForageTx localForageIdx = true :=
  fun _ _ => rfl

end Paperwork
